import Mathlib

/-!
Verification of the leader-side replication peer driver declared in
src/apache-kudu/apache-kudu-1.3.0/src/kudu/consensus/consensus_peers.h
(class Peer, class PeerProxy and its default StartTabletCopy body).

Only the header is present in the repository sources; the bodies of the
Peer member functions (consensus_peers.cc) are not under src/, so the
driver's transition behaviour is modelled from the spec (spec.md sections
3, 4.1, 7), faithful to its words, as marked on each definition below.
The header itself is authoritative for the state fields of Peer
(request_pending_, closed_, failed_attempts_, heartbeater_, ...) and for
the inline default body of PeerProxy::StartTabletCopy.
-/

namespace ConsensusPeers

/-- A network call issued by the driver through its PeerProxy: either an
UpdateAsync consensus request carrying some number of log entries
(zero entries = status-only heartbeat), or a StartTabletCopy
bulk-transfer initiation call. -/
inductive NetCall where
  | update (numEntries : Nat)
  | tabletCopy
deriving DecidableEq

/-- Modelled from the spec: the answer of the shared queue when asked to
produce the next request for this peer (spec section 4.1 step 2 and
section 6 build_request): nothing to send, peer too far behind for
incremental catch-up, or a produced request with some entries. -/
inductive BuildResult where
  | nothingToSend
  | tooFarBehind
  | entries (n : Nat)
deriving DecidableEq

/-- Modelled from the spec: the per-peer view the shared PeerMessageQueue
keeps (spec section 6): the log entries appended so far (queueLen), the
peer's recorded acknowledged watermark, and whether the queue reports the
peer as too far behind for incremental catch-up. The queue itself is an
external collaborator specified only at this interface. -/
structure Queue where
  queueLen : Nat
  lastWatermark : Nat
  peerTooFarBehind : Bool
deriving DecidableEq

/-- Modelled from the spec: build_request (spec section 6): reports
peer-too-far-behind, else nothing-to-send when every appended entry is
already acknowledged, else the window of unacknowledged entries. -/
def Queue.buildRequest (q : Queue) : BuildResult :=
  if q.peerTooFarBehind then BuildResult.tooFarBehind
  else if q.queueLen ≤ q.lastWatermark then BuildResult.nothingToSend
  else BuildResult.entries (q.queueLen - q.lastWatermark)

/-- Modelled from the spec: record_response (spec section 6, section 8):
records the acknowledged watermark reported by an accepted response; the
recorded watermark never regresses, so recording takes the maximum of the
old recorded value and the newly acknowledged one. -/
def Queue.recordResponse (q : Queue) (ack : Nat) : Queue :=
  { q with lastWatermark := max q.lastWatermark ack }

/-- Modelled from the spec: the logically distinct outcomes of an in-flight
call as seen by phase-2 response handling (spec section 4.1): a
transport-level failure, a well-formed reply rejecting the request because
the peer is log-divergent or too far behind, or a well-formed reply
accepting the request and acknowledging a watermark. -/
inductive Response where
  | transportError
  | rejectedTooFarBehind
  | accepted (ack : Nat)
deriving DecidableEq

/-- The mutable state of one Peer driver. The Bool and counter fields
mirror the members of class Peer in consensus_peers.h (closed_,
request_pending_, failed_attempts_, has_sent_first_request_, and the
heartbeater_); retryRequested/retryForce are the coalesced
deferred-retry marker of spec section 4.1 (SignalRequest while pending
"sets/merges an internal retry-requested marker"); the queue field is the
shared queue's recorded view of this peer; outstanding counts the network
calls currently in flight (issued and not yet completed). -/
structure Peer where
  closed : Bool
  requestPending : Bool
  retryRequested : Bool
  retryForce : Bool
  failedAttempts : Nat
  hasSentFirstRequest : Bool
  heartbeatRunning : Bool
  tabletCopyEnabled : Bool
  queue : Queue
  outstanding : Nat
deriving DecidableEq

/-- Modelled from the spec: Peer::PrepareTabletCopyRequest
(consensus_peers.h lines 132-137, body not under src/): returns the
bulk-transfer initiation call, or nothing when tablet copy is
administratively disabled (a local failure, reported, not sent). -/
def Peer.PrepareTabletCopyRequest (s : Peer) : Option NetCall :=
  if s.tabletCopyEnabled then some NetCall.tabletCopy else none

/-- Modelled from the spec: Peer::SendNextRequest (consensus_peers.h line
121, body not under src/), the worker-pool request-construction task of
spec section 4.1 steps 2-4, reached only with the driver open and no
request pending: asks the queue to build the request; on nothing-to-send
it sends a zero-entry status-only call only when forced, otherwise it is
a silent no-op with the pending flag left clear; on too-far-behind it
switches to the bulk-transfer fallback (no call when disabled); on a
produced request it sends the entries. Every issued call sets the
pending flag. -/
def Peer.SendNextRequest (s : Peer) (force : Bool) : Peer × List NetCall :=
  match s.queue.buildRequest with
  | BuildResult.nothingToSend =>
      if force then
        ({ s with requestPending := true, hasSentFirstRequest := true,
                  outstanding := s.outstanding + 1 }, [NetCall.update 0])
      else ({ s with requestPending := false }, [])
  | BuildResult.tooFarBehind =>
      match s.PrepareTabletCopyRequest with
      | some call =>
          ({ s with requestPending := true, hasSentFirstRequest := true,
                    outstanding := s.outstanding + 1 }, [call])
      | none => ({ s with requestPending := false }, [])
  | BuildResult.entries n =>
      ({ s with requestPending := true, hasSentFirstRequest := true,
                outstanding := s.outstanding + 1 }, [NetCall.update n])

/-- Modelled from the spec: Peer::SignalRequest (consensus_peers.h lines
81-85, body not under src/; spec section 4.1): no-op when the driver is
closed; when a request is already pending it only sets/merges the
coalesced retry marker (no network call); otherwise it enters request
construction. -/
def Peer.SignalRequest (s : Peer) (force : Bool) : Peer × List NetCall :=
  if s.closed then (s, [])
  else if s.requestPending then
    ({ s with retryRequested := true, retryForce := s.retryForce || force }, [])
  else s.SendNextRequest force

/-- Modelled from the spec: Peer::DoProcessResponse and
Peer::ProcessResponseError (consensus_peers.h lines 123-143, bodies not
under src/; spec section 4.1 phase 2): a completion observed after Close
is discarded without touching any state; otherwise the pending flag is
cleared and the coalesced retry marker consumed, then: a transport error
increments failed_attempts_ and schedules a retry through the same
coalescing path as SignalRequest; a too-far-behind rejection is not a
transport failure and initiates the bulk-transfer call; an accepted
response records the acknowledged watermark in the queue, resets
failed_attempts_, and re-enters construction immediately when more
unsent data remains, or honours the coalesced retry marker. -/
def Peer.DoProcessResponse (s : Peer) (r : Response) : Peer × List NetCall :=
  if s.closed then (s, [])
  else if s.requestPending = false then (s, [])
  else
    let retry := s.retryRequested
    let rforce := s.retryForce
    let s0 : Peer :=
      { s with requestPending := false, outstanding := s.outstanding - 1,
               retryRequested := false, retryForce := false }
    match r with
    | Response.transportError =>
        Peer.SignalRequest { s0 with failedAttempts := s0.failedAttempts + 1 } true
    | Response.rejectedTooFarBehind =>
        match s0.PrepareTabletCopyRequest with
        | some call =>
            ({ s0 with requestPending := true, hasSentFirstRequest := true,
                       outstanding := s0.outstanding + 1 }, [call])
        | none => (s0, [])
    | Response.accepted ack =>
        let s1 : Peer :=
          { s0 with failedAttempts := 0, queue := s0.queue.recordResponse ack }
        if s1.queue.lastWatermark < s1.queue.queueLen then
          s1.SendNextRequest false
        else if retry then s1.SendNextRequest rforce
        else (s1, [])

/-- Modelled from the spec: Peer::Close (consensus_peers.h lines 89-98,
body not under src/; spec section 4.1): marks the driver closed and stops
the heartbeat timer; does not cancel calls already in flight and touches
nothing else. -/
def Peer.Close (s : Peer) : Peer × List NetCall :=
  ({ s with closed := true, heartbeatRunning := false }, [])

/-- Modelled from the spec: Peer::Init (consensus_peers.h line 79, body
not under src/; spec section 4.1): starts the heartbeat timer; fails
(Bool result false) if the timer is already started. -/
def Peer.Init (s : Peer) : Peer × Bool :=
  if s.heartbeatRunning then (s, false)
  else ({ s with heartbeatRunning := true }, true)

/-- Modelled from the spec: the heartbeat timer firing (spec section 4.1
heartbeat integration): when the timer is running it invokes
SignalRequest with force = true; a stopped timer fires no send. -/
def Peer.heartbeatFire (s : Peer) : Peer × List NetCall :=
  if s.heartbeatRunning then s.SignalRequest true else (s, [])

/-- An external event delivered to the driver: a SignalRequest call with
its force flag, the phase-2 processing of a completed in-flight call, a
heartbeat timer firing, or a Close call. -/
inductive Event where
  | signal (force : Bool)
  | response (r : Response)
  | heartbeat
  | close
deriving DecidableEq

/-- One atomic handler execution (the per-driver lock serialises them):
dispatches the event to the corresponding operation and reports the
network calls issued while handling it. -/
def step (s : Peer) : Event → Peer × List NetCall
  | Event.signal f => s.SignalRequest f
  | Event.response r => s.DoProcessResponse r
  | Event.heartbeat => s.heartbeatFire
  | Event.close => s.Close

/-- Runs a sequence of events, concatenating the network calls issued. -/
def run (s : Peer) : List Event → Peer × List NetCall
  | [] => (s, [])
  | e :: es =>
      let p := step s e
      let q := run p.1 es
      (q.1, p.2 ++ q.2)

/-- A freshly created driver (NewRemotePeer, consensus_peers.h lines
108-114): open, nothing pending, zero failed attempts, heartbeat not yet
started (Init starts it), tracking a queue with numEntries appended
entries none of which the peer has acknowledged. -/
def initPeer (numEntries : Nat) (tcEnabled : Bool) : Peer :=
  { closed := false, requestPending := false, retryRequested := false,
    retryForce := false, failedAttempts := 0, hasSentFirstRequest := false,
    heartbeatRunning := false, tabletCopyEnabled := tcEnabled,
    queue := { queueLen := numEntries, lastWatermark := 0,
               peerTooFarBehind := false },
    outstanding := 0 }

end ConsensusPeers

namespace ConsensusPeers

/-- The single-outstanding-call invariant of spec section 3: the pending
flag is the mutual-exclusion gate, so a call is in flight exactly when
request_pending_ is set. -/
def okInv (s : Peer) : Prop :=
  s.outstanding = if s.requestPending then 1 else 0

/-- A driver on which Close has completed: closed flag set, heartbeat
timer stopped. -/
def IsClosed (s : Peer) : Prop :=
  s.closed = true ∧ s.heartbeatRunning = false

/-- A concrete open driver with a request in flight: three entries
appended to the shared queue, one acknowledged, heartbeat running,
tablet copy enabled. -/
def pendingPeer : Peer :=
  { closed := false, requestPending := true, retryRequested := false,
    retryForce := false, failedAttempts := 0, hasSentFirstRequest := true,
    heartbeatRunning := true, tabletCopyEnabled := true,
    queue := { queueLen := 3, lastWatermark := 1, peerTooFarBehind := false },
    outstanding := 1 }

/-- The same driver after Close has completed while its call was still in
flight. -/
def closedPeer : Peer :=
  { pendingPeer with closed := true, heartbeatRunning := false }

/-- A freshly created driver with an empty queue on which Init has been
called (heartbeat timer started). -/
def initializedPeer : Peer :=
  (Peer.Init (initPeer 0 true)).1

/-- The observable effect of one PeerProxy operation invocation: how many
times its completion callback runs, whether a "Not implemented" message
is logged, and whether the invocation aborts the process in a release
build. -/
structure ProxyCallEffect where
  callbackInvocations : Nat
  logsNotImplemented : Bool
  abortsInRelease : Bool
deriving DecidableEq

/-- The default body of PeerProxy::StartTabletCopy (consensus_peers.h
lines 210-215): LOG(DFATAL) logs the message "Not implemented" and the
function returns; DFATAL aborts only in debug builds, not in release
builds, and the completion callback is never invoked. -/
def startTabletCopyDefault : ProxyCallEffect :=
  { callbackInvocations := 0, logsNotImplemented := true,
    abortsInRelease := false }

/-- The three ways an asynchronous proxy call can end, per spec section
4.2. -/
inductive CallOutcome where
  | success
  | failure
  | cancellation
deriving DecidableEq

/-- Modelled from the spec: the completion contract of the implemented
(overridden) proxy operations — the RpcPeerProxy bodies are not under
src/ — spec section 4.2: a completion callback invoked exactly once
regardless of outcome (success, failure, or cancellation). -/
def implementedProxyCall (_o : CallOutcome) : ProxyCallEffect :=
  { callbackInvocations := 1, logsNotImplemented := false,
    abortsInRelease := false }

theorem signalRequest_closed (s : Peer) (h : s.closed = true) (f : Bool) :
    s.SignalRequest f = (s, []) := by
  simp [Peer.SignalRequest, h]

theorem signalRequest_pending (s : Peer) (hc : s.closed = false)
    (hp : s.requestPending = true) (f : Bool) :
    s.SignalRequest f =
      ({ s with retryRequested := true, retryForce := s.retryForce || f }, []) := by
  simp [Peer.SignalRequest, hc, hp]

theorem signalRequest_idle (s : Peer) (hc : s.closed = false)
    (hp : s.requestPending = false) (f : Bool) :
    s.SignalRequest f = s.SendNextRequest f := by
  simp [Peer.SignalRequest, hc, hp]

theorem doProcess_closed_eq (s : Peer) (h : s.closed = true) (r : Response) :
    s.DoProcessResponse r = (s, []) := by
  simp [Peer.DoProcessResponse, h]

theorem doProcess_stray (s : Peer) (hc : s.closed = false)
    (hp : s.requestPending = false) (r : Response) :
    s.DoProcessResponse r = (s, []) := by
  simp [Peer.DoProcessResponse, hc, hp]

theorem doProcess_transportError (s : Peer) (hc : s.closed = false)
    (hp : s.requestPending = true) :
    s.DoProcessResponse Response.transportError =
      Peer.SignalRequest
        { s with requestPending := false, retryRequested := false,
                 retryForce := false, failedAttempts := s.failedAttempts + 1,
                 outstanding := s.outstanding - 1 } true := by
  simp [Peer.DoProcessResponse, hc, hp]

theorem doProcess_tooFar (s : Peer) (hc : s.closed = false)
    (hp : s.requestPending = true) (ht : s.tabletCopyEnabled = true) :
    s.DoProcessResponse Response.rejectedTooFarBehind =
      ({ s with requestPending := true, retryRequested := false,
                retryForce := false, hasSentFirstRequest := true,
                outstanding := s.outstanding - 1 + 1 }, [NetCall.tabletCopy]) := by
  simp [Peer.DoProcessResponse, Peer.PrepareTabletCopyRequest, hc, hp, ht]

theorem doProcess_tooFar_disabled (s : Peer) (hc : s.closed = false)
    (hp : s.requestPending = true) (ht : s.tabletCopyEnabled = false) :
    s.DoProcessResponse Response.rejectedTooFarBehind =
      ({ s with requestPending := false, retryRequested := false,
                retryForce := false, outstanding := s.outstanding - 1 }, []) := by
  simp [Peer.DoProcessResponse, Peer.PrepareTabletCopyRequest, hc, hp, ht]

theorem doProcess_accepted (s : Peer) (hc : s.closed = false)
    (hp : s.requestPending = true) (ack : Nat) :
    s.DoProcessResponse (Response.accepted ack) =
      (let s1 : Peer :=
        { s with requestPending := false, retryRequested := false,
                 retryForce := false, failedAttempts := 0,
                 queue := s.queue.recordResponse ack,
                 outstanding := s.outstanding - 1 }
       if s1.queue.lastWatermark < s1.queue.queueLen then
         s1.SendNextRequest false
       else if s.retryRequested then s1.SendNextRequest s.retryForce
       else (s1, [])) := by
  simp [Peer.DoProcessResponse, hc, hp]

theorem sendNext_out_len (s : Peer) (f : Bool) :
    (s.SendNextRequest f).2.length ≤ 1 := by
  unfold Peer.SendNextRequest Peer.PrepareTabletCopyRequest
  cases hb : s.queue.buildRequest <;> simp <;> split <;> simp

theorem signal_out_len (s : Peer) (f : Bool) :
    (s.SignalRequest f).2.length ≤ 1 := by
  cases hc : s.closed
  · cases hp : s.requestPending
    · rw [signalRequest_idle s hc hp f]; exact sendNext_out_len s f
    · rw [signalRequest_pending s hc hp f]; exact Nat.zero_le 1
  · rw [signalRequest_closed s hc f]; exact Nat.zero_le 1

theorem doProcess_out_len (s : Peer) (r : Response) :
    (s.DoProcessResponse r).2.length ≤ 1 := by
  cases hc : s.closed
  · cases hp : s.requestPending
    · rw [doProcess_stray s hc hp r]; exact Nat.zero_le 1
    · cases r with
      | transportError =>
          rw [doProcess_transportError s hc hp]
          exact signal_out_len _ true
      | rejectedTooFarBehind =>
          cases ht : s.tabletCopyEnabled
          · rw [doProcess_tooFar_disabled s hc hp ht]; exact Nat.zero_le 1
          · rw [doProcess_tooFar s hc hp ht]; exact Nat.le_refl 1
      | accepted ack =>
          rw [doProcess_accepted s hc hp ack]
          dsimp only
          split
          · exact sendNext_out_len _ false
          · split
            · exact sendNext_out_len _ _
            · exact Nat.zero_le 1
  · rw [doProcess_closed_eq s hc r]; exact Nat.zero_le 1

theorem heartbeatFire_out_len (s : Peer) :
    (s.heartbeatFire).2.length ≤ 1 := by
  unfold Peer.heartbeatFire
  split
  · exact signal_out_len s true
  · exact Nat.zero_le 1

theorem step_out_len (s : Peer) (e : Event) :
    (step s e).2.length ≤ 1 := by
  cases e with
  | signal f => exact signal_out_len s f
  | response r => exact doProcess_out_len s r
  | heartbeat => exact heartbeatFire_out_len s
  | close => exact Nat.zero_le 1

theorem sendNext_inv (s : Peer) (h : s.outstanding = 0) (f : Bool) :
    okInv (s.SendNextRequest f).1 := by
  unfold Peer.SendNextRequest Peer.PrepareTabletCopyRequest okInv
  cases hb : s.queue.buildRequest <;> simp [h] <;> split <;> simp [h]

theorem signal_inv (s : Peer) (h : okInv s) (f : Bool) :
    okInv (s.SignalRequest f).1 := by
  cases hc : s.closed
  · cases hp : s.requestPending
    · rw [signalRequest_idle s hc hp f]
      exact sendNext_inv s (by simpa [okInv, hp] using h) f
    · rw [signalRequest_pending s hc hp f]
      simpa [okInv, hp] using h
  · rw [signalRequest_closed s hc f]
    exact h

theorem doProcess_inv (s : Peer) (h : okInv s) (r : Response) :
    okInv (s.DoProcessResponse r).1 := by
  cases hc : s.closed
  · cases hp : s.requestPending
    · rw [doProcess_stray s hc hp r]
      exact h
    · have ho : s.outstanding = 1 := by simpa [okInv, hp] using h
      cases r with
      | transportError =>
          rw [doProcess_transportError s hc hp]
          exact signal_inv _ (by simp [okInv, ho]) true
      | rejectedTooFarBehind =>
          cases ht : s.tabletCopyEnabled
          · rw [doProcess_tooFar_disabled s hc hp ht]
            simp [okInv, ho]
          · rw [doProcess_tooFar s hc hp ht]
            simp [okInv, ho]
      | accepted ack =>
          rw [doProcess_accepted s hc hp ack]
          dsimp only
          split
          · exact sendNext_inv _ (by simp [ho]) false
          · split
            · exact sendNext_inv _ (by simp [ho]) _
            · simp [okInv, ho]
  · rw [doProcess_closed_eq s hc r]
    exact h

theorem step_inv (s : Peer) (h : okInv s) (e : Event) :
    okInv (step s e).1 := by
  cases e with
  | signal f => exact signal_inv s h f
  | response r => exact doProcess_inv s h r
  | heartbeat =>
      show okInv (s.heartbeatFire).1
      unfold Peer.heartbeatFire
      split
      · exact signal_inv s h true
      · exact h
  | close =>
      show okInv (s.Close).1
      simpa [Peer.Close, okInv] using h

theorem run_inv (s : Peer) (h : okInv s) (evs : List Event) :
    okInv (run s evs).1 := by
  induction evs generalizing s with
  | nil => exact h
  | cons e es ih => exact ih _ (step_inv s h e)

theorem okInv_le_one (s : Peer) (h : okInv s) : s.outstanding ≤ 1 := by
  rw [h]
  split <;> simp

theorem signal_while_pending (s : Peer) (h : s.requestPending = true)
    (f : Bool) :
    (s.SignalRequest f).2 = [] ∧ (s.SignalRequest f).1.requestPending = true := by
  cases hc : s.closed
  · rw [signalRequest_pending s hc h f]
    exact ⟨rfl, h⟩
  · rw [signalRequest_closed s hc f]
    exact ⟨rfl, h⟩

theorem run_signals_while_pending (s : Peer) (h : s.requestPending = true)
    (sigs : List Bool) :
    (run s (sigs.map Event.signal)).2 = [] ∧
      (run s (sigs.map Event.signal)).1.requestPending = true := by
  induction sigs generalizing s with
  | nil => exact ⟨rfl, h⟩
  | cons f fs ih =>
      have h1 := signal_while_pending s h f
      have h2 := ih (s.SignalRequest f).1 h1.2
      simp only [List.map, run, step]
      exact ⟨by rw [h1.1, h2.1]; rfl, h2.2⟩

theorem heartbeatFire_stopped (s : Peer) (h : s.heartbeatRunning = false) :
    s.heartbeatFire = (s, []) := by
  simp [Peer.heartbeatFire, h]

theorem step_closed (s : Peer) (h : IsClosed s) (e : Event) :
    (step s e).2 = [] ∧ IsClosed (step s e).1 := by
  cases e with
  | signal f =>
      show (s.SignalRequest f).2 = [] ∧ IsClosed (s.SignalRequest f).1
      rw [signalRequest_closed s h.1 f]
      exact ⟨rfl, h⟩
  | response r =>
      show (s.DoProcessResponse r).2 = [] ∧ IsClosed (s.DoProcessResponse r).1
      rw [doProcess_closed_eq s h.1 r]
      exact ⟨rfl, h⟩
  | heartbeat =>
      show (s.heartbeatFire).2 = [] ∧ IsClosed (s.heartbeatFire).1
      rw [heartbeatFire_stopped s h.2]
      exact ⟨rfl, h⟩
  | close => exact ⟨rfl, rfl, rfl⟩

theorem run_closed (s : Peer) (h : IsClosed s) (evs : List Event) :
    (run s evs).2 = [] ∧ IsClosed (run s evs).1 := by
  induction evs generalizing s with
  | nil => exact ⟨rfl, h⟩
  | cons e es ih =>
      have h1 := step_closed s h e
      have h2 := ih _ h1.2
      simp only [run]
      exact ⟨by rw [h1.1, h2.1]; rfl, h2.2⟩

theorem sendNext_queue (s : Peer) (f : Bool) :
    (s.SendNextRequest f).1.queue = s.queue := by
  unfold Peer.SendNextRequest Peer.PrepareTabletCopyRequest
  cases hb : s.queue.buildRequest <;> simp <;> split <;> simp

/-- C1: For every driver and every sequence of SignalRequest calls issued
while a request is pending, at most one follow-up network call is sent
after the pending call completes: signals arriving during an outstanding
call are coalesced into a single deferred retry (they themselves send
nothing and leave the request pending), the completion handler issues at
most one call, and on every event trace from a fresh driver there is
never more than one outstanding network call at any instant. -/
theorem coalescing_single_followup (s : Peer) (hp : s.requestPending = true)
    (sigs : List Bool) (r : Response) :
    ((run s (sigs.map Event.signal)).2 = [] ∧
     (run s (sigs.map Event.signal)).1.requestPending = true ∧
     (step (run s (sigs.map Event.signal)).1 (Event.response r)).2.length ≤ 1) ∧
    (∀ (n : Nat) (b : Bool) (evs : List Event),
       (run (initPeer n b) evs).1.outstanding ≤ 1) := by
  constructor
  · have h := run_signals_while_pending s hp sigs
    exact ⟨h.1, h.2, step_out_len _ _⟩
  · intro n b evs
    exact okInv_le_one _ (run_inv (initPeer n b) rfl evs)

/-- Witness for C1 at a concrete pending driver and two coalesced
signals. -/
theorem coalescing_single_followup_witness :
    pendingPeer.requestPending = true ∧
    (((run pendingPeer ([true, false].map Event.signal)).2 = [] ∧
      (run pendingPeer ([true, false].map Event.signal)).1.requestPending = true ∧
      (step (run pendingPeer ([true, false].map Event.signal)).1
        (Event.response Response.transportError)).2.length ≤ 1) ∧
     (∀ (n : Nat) (b : Bool) (evs : List Event),
        (run (initPeer n b) evs).1.outstanding ≤ 1)) :=
  ⟨rfl, coalescing_single_followup pendingPeer rfl [true, false]
    Response.transportError⟩

/-- C2: After Close() returns, the driver never issues a new network
call: the heartbeat timer is stopped, SignalRequest on the closed driver
is a no-op, and no event trace run after Close emits any call. -/
theorem close_no_further_calls (s : Peer) (evs : List Event) :
    (s.Close).1.heartbeatRunning = false ∧
    (∀ f : Bool, (s.Close).1.SignalRequest f = ((s.Close).1, [])) ∧
    (run (s.Close).1 evs).2 = [] := by
  refine ⟨rfl, fun f => signalRequest_closed _ rfl f, ?_⟩
  exact (run_closed _ ⟨rfl, rfl⟩ evs).1

/-- C3: a response to a call that was in flight when Close() was called,
arriving after Close(), is discarded: processing it leaves the shared
queue's recorded state for this peer untouched, leaves the whole driver
state unchanged, and schedules no retry call. -/
theorem response_after_close_discarded (s : Peer) (h : s.closed = true)
    (r : Response) :
    (s.DoProcessResponse r).1.queue = s.queue ∧
    s.DoProcessResponse r = (s, []) := by
  have e := doProcess_closed_eq s h r
  exact ⟨by rw [e], e⟩

/-- Witness for C3: an accepted response arriving at a closed driver. -/
theorem response_after_close_discarded_witness :
    closedPeer.closed = true ∧
    ((closedPeer.DoProcessResponse (Response.accepted 5)).1.queue
        = closedPeer.queue ∧
     closedPeer.DoProcessResponse (Response.accepted 5) = (closedPeer, [])) :=
  ⟨rfl, response_after_close_discarded closedPeer rfl (Response.accepted 5)⟩

/-- C10: Close may be invoked at any point in the driver's lifetime,
including while a request is outstanding or when the driver is already
closed: it issues no call, marks the driver closed, and a second Close
call leaves the driver's state unchanged (Close is idempotent). -/
theorem close_idempotent (s : Peer) :
    (s.Close).2 = [] ∧
    (s.Close).1.closed = true ∧
    (s.Close).1.Close = ((s.Close).1, []) := by
  exact ⟨rfl, rfl, rfl⟩

/-- C4 counterexample: an accepted response that re-acknowledges the
currently recorded watermark (pendingPeer has watermark 1, the response
acknowledges 1) is processed by an open driver yet does not strictly
advance the recorded watermark, refuting the claim that every accepted
response strictly advances it. -/
theorem watermark_strict_advance_counterexample :
    ¬ ((pendingPeer.DoProcessResponse (Response.accepted 1)).1.queue.lastWatermark
        > pendingPeer.queue.lastWatermark) := by decide

/-- C4 (amended): for every accepted response processed by an open driver
with a request in flight, the peer's recorded watermark in the shared
queue never regresses, and it strictly advances whenever the response
acknowledges a watermark greater than the currently recorded one. -/
theorem watermark_never_regresses (s : Peer) (hc : s.closed = false)
    (hp : s.requestPending = true) (ack : Nat) :
    s.queue.lastWatermark ≤
      (s.DoProcessResponse (Response.accepted ack)).1.queue.lastWatermark ∧
    (s.queue.lastWatermark < ack →
      s.queue.lastWatermark <
        (s.DoProcessResponse (Response.accepted ack)).1.queue.lastWatermark) := by
  have hq : (s.DoProcessResponse (Response.accepted ack)).1.queue
      = s.queue.recordResponse ack := by
    rw [doProcess_accepted s hc hp ack]
    dsimp only
    split
    · rw [sendNext_queue]
    · split
      · rw [sendNext_queue]
      · rfl
  rw [hq]
  unfold Queue.recordResponse
  dsimp only
  exact ⟨le_max_left _ _, fun h => lt_max_iff.mpr (Or.inr h)⟩

/-- Witness for C4 (amended): the open pending driver with watermark 1
processing a response acknowledging watermark 5. -/
theorem watermark_never_regresses_witness :
    pendingPeer.closed = false ∧ pendingPeer.requestPending = true ∧
    (pendingPeer.queue.lastWatermark ≤
       (pendingPeer.DoProcessResponse (Response.accepted 5)).1.queue.lastWatermark ∧
     (pendingPeer.queue.lastWatermark < 5 →
       pendingPeer.queue.lastWatermark <
         (pendingPeer.DoProcessResponse (Response.accepted 5)).1.queue.lastWatermark)) :=
  ⟨rfl, rfl, watermark_never_regresses pendingPeer rfl rfl 5⟩

/-- C5: a well-formed reply reporting the peer too far behind (or
log-divergent), processed by an open driver with tablet copy enabled, is
not treated as a transport failure (the failed-attempts counter is
unchanged) and the next scheduled call is the bulk-transfer initiation
call, which is not a normal replication call. -/
theorem toofar_reply_triggers_tablet_copy (s : Peer) (hc : s.closed = false)
    (hp : s.requestPending = true) (ht : s.tabletCopyEnabled = true) :
    (s.DoProcessResponse Response.rejectedTooFarBehind).2 = [NetCall.tabletCopy] ∧
    (s.DoProcessResponse Response.rejectedTooFarBehind).1.failedAttempts
        = s.failedAttempts ∧
    (∀ n : Nat, NetCall.tabletCopy ≠ NetCall.update n) := by
  rw [doProcess_tooFar s hc hp ht]
  exact ⟨rfl, rfl, fun n h => NetCall.noConfusion h⟩

/-- Witness for C5 at the concrete pending driver. -/
theorem toofar_reply_triggers_tablet_copy_witness :
    pendingPeer.closed = false ∧ pendingPeer.requestPending = true ∧
    pendingPeer.tabletCopyEnabled = true ∧
    ((pendingPeer.DoProcessResponse Response.rejectedTooFarBehind).2
        = [NetCall.tabletCopy] ∧
     (pendingPeer.DoProcessResponse Response.rejectedTooFarBehind).1.failedAttempts
        = pendingPeer.failedAttempts ∧
     (∀ n : Nat, NetCall.tabletCopy ≠ NetCall.update n)) :=
  ⟨rfl, rfl, rfl, toofar_reply_triggers_tablet_copy pendingPeer rfl rfl rfl⟩

/-- C7: SignalRequest with force = false on an open idle driver whose
queue reports nothing to send (every appended entry acknowledged, peer
not too far behind) issues no network call and leaves the pending flag
clear. -/
theorem signal_noforce_empty_queue_noop (s : Peer) (hc : s.closed = false)
    (hp : s.requestPending = false)
    (hq : s.queue.queueLen ≤ s.queue.lastWatermark)
    (hf : s.queue.peerTooFarBehind = false) :
    (s.SignalRequest false).2 = [] ∧
    (s.SignalRequest false).1.requestPending = false := by
  rw [signalRequest_idle s hc hp false]
  have hb : s.queue.buildRequest = BuildResult.nothingToSend := by
    simp [Queue.buildRequest, hf, hq]
  unfold Peer.SendNextRequest
  rw [hb]
  simp

/-- Witness for C7: the freshly initialized driver with an empty queue. -/
theorem signal_noforce_empty_queue_noop_witness :
    initializedPeer.closed = false ∧
    initializedPeer.requestPending = false ∧
    initializedPeer.queue.queueLen ≤ initializedPeer.queue.lastWatermark ∧
    initializedPeer.queue.peerTooFarBehind = false ∧
    ((initializedPeer.SignalRequest false).2 = [] ∧
     (initializedPeer.SignalRequest false).1.requestPending = false) :=
  ⟨rfl, rfl, Nat.le_refl 0,
    rfl, signal_noforce_empty_queue_noop initializedPeer rfl rfl (Nat.le_refl 0) rfl⟩

/-- C8: SignalRequest with force = true on an open idle driver whose
queue is empty sends exactly one status-only heartbeat call carrying
zero log entries, and that call becomes the pending request. -/
theorem signal_force_empty_queue_heartbeat (s : Peer) (hc : s.closed = false)
    (hp : s.requestPending = false)
    (hq : s.queue.queueLen ≤ s.queue.lastWatermark)
    (hf : s.queue.peerTooFarBehind = false) :
    (s.SignalRequest true).2 = [NetCall.update 0] ∧
    (s.SignalRequest true).1.requestPending = true := by
  rw [signalRequest_idle s hc hp true]
  have hb : s.queue.buildRequest = BuildResult.nothingToSend := by
    simp [Queue.buildRequest, hf, hq]
  unfold Peer.SendNextRequest
  rw [hb]
  simp

/-- Witness for C8: the freshly initialized driver with an empty queue. -/
theorem signal_force_empty_queue_heartbeat_witness :
    initializedPeer.closed = false ∧
    initializedPeer.requestPending = false ∧
    initializedPeer.queue.queueLen ≤ initializedPeer.queue.lastWatermark ∧
    initializedPeer.queue.peerTooFarBehind = false ∧
    ((initializedPeer.SignalRequest true).2 = [NetCall.update 0] ∧
     (initializedPeer.SignalRequest true).1.requestPending = true) :=
  ⟨rfl, rfl, Nat.le_refl 0, rfl,
    signal_force_empty_queue_heartbeat initializedPeer rfl rfl (Nat.le_refl 0) rfl⟩

/-- C9 counterexample: the default base-class body of
PeerProxy::StartTabletCopy (consensus_peers.h lines 210-215) never
invokes the completion callback, refuting the claim that every proxy
operation's completion callback is invoked exactly once regardless of
outcome. -/
theorem proxy_callback_counterexample :
    ¬ (startTabletCopyDefault.callbackInvocations = 1) := by decide

/-- C9 (amended): the default base-class start-bulk-transfer
implementation logs "Not implemented" without aborting a release build,
but invokes the completion callback zero times rather than once; the
exactly-once completion-callback contract holds for the implemented
(overridden) proxy operations. -/
theorem default_start_tablet_copy_behaviour :
    startTabletCopyDefault.logsNotImplemented = true ∧
    startTabletCopyDefault.abortsInRelease = false ∧
    startTabletCopyDefault.callbackInvocations = 0 ∧
    (∀ o : CallOutcome, (implementedProxyCall o).callbackInvocations = 1) :=
  ⟨rfl, rfl, rfl, fun _ => rfl⟩

/-- C6: each transport-level failure increments the consecutive
failed-attempts counter and schedules a retry rather than disabling the
driver: from a fresh driver with a nonempty queue, after the first send
and three consecutive transport failures the counter equals 3 and four
sends have been attempted in total (the fourth still carrying the
entries), so no number of failures is fatal to the driver. -/
theorem transport_failures_not_fatal (n : Nat) (hn : 0 < n) :
    (run (initPeer n true)
      [Event.signal false, Event.response Response.transportError,
       Event.response Response.transportError,
       Event.response Response.transportError]).1.failedAttempts = 3 ∧
    (run (initPeer n true)
      [Event.signal false, Event.response Response.transportError,
       Event.response Response.transportError,
       Event.response Response.transportError]).2 =
      [NetCall.update n, NetCall.update n, NetCall.update n, NetCall.update n] := by
  have hn2 : ¬ (n ≤ 0) := Nat.not_le.mpr hn
  constructor <;>
    simp [run, step, Peer.SignalRequest, Peer.SendNextRequest,
          Peer.DoProcessResponse, Queue.buildRequest,
          Peer.PrepareTabletCopyRequest, initPeer, hn2]

/-- Witness for C6 with a single-entry queue. -/
theorem transport_failures_not_fatal_witness :
    0 < 1 ∧
    ((run (initPeer 1 true)
       [Event.signal false, Event.response Response.transportError,
        Event.response Response.transportError,
        Event.response Response.transportError]).1.failedAttempts = 3 ∧
     (run (initPeer 1 true)
       [Event.signal false, Event.response Response.transportError,
        Event.response Response.transportError,
        Event.response Response.transportError]).2 =
       [NetCall.update 1, NetCall.update 1, NetCall.update 1, NetCall.update 1]) :=
  ⟨Nat.zero_lt_one, transport_failures_not_fatal 1 Nat.zero_lt_one⟩

end ConsensusPeers
